import Mathlib

/-!
Verification of the `recoverable-spawn` library (src/thread/{type,trait,sync}.rs).

Shallow embedding conventions:
* A boxed `dyn Any + Send` panic payload (`BoxAnySend`) is modelled by the
  inductive `AnyValue`, one constructor per concrete Rust payload type that the
  development needs to distinguish (`&'static str`, `String`, `Box<str>`,
  `char`, and an arbitrary-other bucket).  `downcast_ref::<T>` succeeds exactly
  on the constructor for `T`.
* An unwinding panic is an `Except.error` value in the `Panics` monad; code
  whose result type is outside `Panics` cannot unwind.  `catch_unwind` turns a
  `Panics Unit` computation into a plain `SpawnResult`, which is exactly what
  `std::panic::catch_unwind` does (normal completion becomes `Ok(())`, an
  unwind becomes `Err(payload)`); `AssertUnwindSafe` is a zero-cost wrapper and
  is not modelled.
* Caller-supplied callables are `Fn`-shaped and deterministic: a zero-argument
  callable is described by an identity tag plus its outcome (`none` = returns
  normally, `some p` = panics with payload `p`); a handler additionally takes
  the `&str` argument.  Every invocation of a callable appends one `Event` to a
  side-effect trace, so "invoked exactly once / in this order / with this
  argument" become statements about the trace.
-/

/-- Rust payload types distinguished by the development.  `vStrSlice` is a
`&'static str` payload, `vString` an owned `String`, `vBoxStr` a `Box<str>`,
`vChar` a `char`, and `vOther ty` any payload of some other type named `ty`. -/
inductive AnyValue where
  | vStrSlice (s : String)
  | vString (s : String)
  | vBoxStr (s : String)
  | vChar (c : Char)
  | vOther (tyName : String)
deriving DecidableEq, Repr

/-- Type alias from src/thread/type.rs: `Box<dyn Any + Send>`, the captured
panic payload. -/
abbrev BoxAnySend := AnyValue

/-- Type alias from src/thread/type.rs: `Result<(), BoxAnySend>`. -/
abbrev SpawnResult := Except BoxAnySend Unit

/-- Computations that may unwind with a `BoxAnySend` payload. -/
abbrev Panics (α : Type) := Except BoxAnySend α

/-- Rust `err.downcast_ref::<&str>()`: succeeds exactly when the boxed value's
dynamic type is `&'static str`. -/
def downcast_ref_str : BoxAnySend → Option String
  | AnyValue.vStrSlice s => some s
  | _ => none

/-- Rust `err.downcast_ref::<String>()`: succeeds exactly when the boxed
value's dynamic type is `String`. -/
def downcast_ref_String : BoxAnySend → Option String
  | AnyValue.vString s => some s
  | _ => none

/-- Rust `format!("\x7b:?\x7d", err)` for `err : Box<dyn Any + Send>`: the
`Debug` impl for the trait object `dyn Any + Send` prints the fixed text
`Any \x7b .. \x7d`, independent of the boxed value. -/
def debug_format_any (_ : BoxAnySend) : String := "Any \x7b .. \x7d"

/-- src/thread/sync.rs `spawn_error_to_string`: try `&str`, then `String`,
then fall back to the debug rendering of the box. -/
def spawn_error_to_string (err : BoxAnySend) : String :=
  match downcast_ref_str err with
  | some str_slice => str_slice
  | none =>
    match downcast_ref_String err with
    | some string => string
    | none => debug_format_any err

/-- One recorded side effect: the callable with identity `id` was invoked;
`arg` is `none` for a zero-argument callable and `some s` for a handler
invoked with the string `s`. -/
inductive Event where
  | call (id : Nat) (arg : Option String)
deriving DecidableEq, Repr

/-- A caller-supplied zero-argument callable (trait `RecoverableFunction`,
src/thread/trait.rs: `Fn() + Send + Sync + 'static`): an identity tag plus
the outcome of an invocation (`none` = normal return, `some p` = it panics
with payload `p`).  Being `Fn`-shaped, its behavior is the same on every
invocation. -/
structure RecoverableFunction where
  id : Nat
  behavior : Option BoxAnySend

/-- A caller-supplied error handler (trait `ErrorHandlerFunction`,
src/thread/trait.rs: `Fn(&str) + Send + Sync + 'static`): an identity tag
plus, for each string argument, the outcome of an invocation. -/
structure ErrorHandlerFunction where
  id : Nat
  behavior : String → Option BoxAnySend

/-- One invocation `func()` of a zero-argument callable: records one event and
yields the callable's outcome in the panic monad. -/
def call_recoverable (func : RecoverableFunction) : Panics Unit × List Event :=
  ((match func.behavior with
    | none => Except.ok ()
    | some p => Except.error p), [Event.call func.id none])

/-- One invocation `func(error)` of a handler: records one event carrying the
argument and yields the handler's outcome in the panic monad. -/
def call_error_handler (func : ErrorHandlerFunction) (error : String) :
    Panics Unit × List Event :=
  ((match func.behavior error with
    | none => Except.ok ()
    | some p => Except.error p), [Event.call func.id (some error)])

/-- `std::panic::catch_unwind`: runs the guarded frame and returns its panic
status as an ordinary value.  The result type is plain `SpawnResult`, not
`Panics _`: nothing escapes the guarded frame. -/
def catch_unwind (body : Panics Unit) : SpawnResult := body

/-- src/thread/sync.rs `run_function`: executes a recoverable function within
a panic-safe context, returning a `SpawnResult` (paired here with the
invocation trace). -/
def run_function (func : RecoverableFunction) : SpawnResult × List Event :=
  let c := call_recoverable func
  (catch_unwind c.1, c.2)

/-- src/thread/sync.rs `run_error_handle_function`: executes an error-handling
function with a given error message within a panic-safe context. -/
def run_error_handle_function (func : ErrorHandlerFunction) (error : String) :
    SpawnResult × List Event :=
  let c := call_error_handler func error
  (catch_unwind c.1, c.2)

/-- A spawned thread's handle: `events` is the side-effect trace the thread
produced, `result` is the closure's completion status, which is what joining
the `JoinHandle<()>` observes. -/
structure JoinHandle where
  events : List Event
  result : Panics Unit

/-- `JoinHandle::join` on a `JoinHandle<()>`: `Ok(())` when the thread's
closure completed normally, `Err(payload)` when it panicked. -/
def join (h : JoinHandle) : Except BoxAnySend Unit := h.result

/-- `std::thread::spawn`: runs the closure on a new thread and hands back its
completion status through the handle.  The closure is given by its trace and
its completion status in the panic monad. -/
def thread_spawn (closure : List Event × Panics Unit) : JoinHandle :=
  ⟨closure.1, closure.2⟩

/-- src/thread/sync.rs `recoverable_spawn`: the spawned closure is
`|| \x7b let _ : SpawnResult = run_function(function); \x7d`.  Its body is
pure (the only call is guarded), so its completion status is normal. -/
def recoverable_spawn (function : RecoverableFunction) : JoinHandle :=
  thread_spawn (
    let rr := run_function function
    (rr.2, Except.ok ()))

/-- src/thread/sync.rs `recoverable_spawn_catch`: the spawned closure runs the
work; if it failed, normalizes the payload and runs the handler guarded,
discarding that result. -/
def recoverable_spawn_catch (function : RecoverableFunction)
    (error_handle_function : ErrorHandlerFunction) : JoinHandle :=
  thread_spawn (
    let rr := run_function function
    match rr.1 with
    | Except.error err =>
      let err_string : String := spawn_error_to_string err
      let hr := run_error_handle_function error_handle_function err_string
      (rr.2 ++ hr.2, Except.ok ())
    | Except.ok _ => (rr.2, Except.ok ()))

/-- src/thread/sync.rs `recoverable_spawn_catch_finally`: as catch, then
unconditionally runs the finalizer guarded, discarding its result. -/
def recoverable_spawn_catch_finally (function : RecoverableFunction)
    (error_handle_function : ErrorHandlerFunction)
    (finallyF : RecoverableFunction) : JoinHandle :=
  thread_spawn (
    let rr := run_function function
    let htr : List Event :=
      match rr.1 with
      | Except.error err =>
        let err_string : String := spawn_error_to_string err
        (run_error_handle_function error_handle_function err_string).2
      | Except.ok _ => []
    let fr := run_function finallyF
    (rr.2 ++ htr ++ fr.2, Except.ok ()))

/-!
Theorems, one per claim.
-/

/-- Claim C1: the Fault-Containment Runner (`run_function`, and the
one-argument shape `run_error_handle_function`) returns success when the
invocation completes normally, and returns failure carrying the fault payload
captured at the fault site when the invocation faults; the result type is a
plain `SpawnResult`, so a fault never propagates past the runner's boundary. -/
theorem run_contains_faults (f : RecoverableFunction) (e : ErrorHandlerFunction)
    (s : String) (p : BoxAnySend) :
    (f.behavior = none → (run_function f).1 = Except.ok ()) ∧
    (f.behavior = some p → (run_function f).1 = Except.error p) ∧
    (e.behavior s = none → (run_error_handle_function e s).1 = Except.ok ()) ∧
    (e.behavior s = some p → (run_error_handle_function e s).1 = Except.error p) := by
  refine ⟨fun h => ?_, fun h => ?_, fun h => ?_, fun h => ?_⟩ <;>
    simp [run_function, run_error_handle_function, call_recoverable,
      call_error_handler, catch_unwind, h]

/-- Witness for C1 at concrete callables: a work item panicking with the
literal payload `boom` yields exactly that failure, and a handler that returns
normally yields success. -/
theorem run_contains_faults_witness :
    (run_function ⟨0, some (AnyValue.vStrSlice "boom")⟩).1 =
      Except.error (AnyValue.vStrSlice "boom") ∧
    (run_error_handle_function ⟨1, fun _ => none⟩ "boom").1 = Except.ok () :=
  ⟨(run_contains_faults ⟨0, some (AnyValue.vStrSlice "boom")⟩ ⟨1, fun _ => none⟩
      "boom" (AnyValue.vStrSlice "boom")).2.1 rfl,
   (run_contains_faults ⟨0, some (AnyValue.vStrSlice "boom")⟩ ⟨1, fun _ => none⟩
      "boom" (AnyValue.vStrSlice "boom")).2.2.1 rfl⟩

/-- Claim C2: for every launcher and every combination of work, handler and
finalizer outcomes, the closure executed on the spawned thread completes
normally (every callable invocation inside it is guarded), so joining the
returned handle succeeds and never observes a contained fault. -/
theorem join_always_succeeds (f : RecoverableFunction) (e : ErrorHandlerFunction)
    (l : RecoverableFunction) :
    join (recoverable_spawn f) = Except.ok () ∧
    join (recoverable_spawn_catch f e) = Except.ok () ∧
    join (recoverable_spawn_catch_finally f e l) = Except.ok () := by
  obtain ⟨i, b⟩ := f
  cases b <;>
    simp [join, recoverable_spawn, recoverable_spawn_catch,
      recoverable_spawn_catch_finally, thread_spawn, run_function,
      run_error_handle_function, call_recoverable, call_error_handler,
      catch_unwind]

/-- Claim C3: in every launch via `recoverable_spawn_catch_finally`, whatever
the outcomes of work and handler, the finalizer is invoked exactly once, and
its invocation is the last event of the launch, hence strictly after the work
invocation and (when the work failed) strictly after the handler invocation.
The hypothesis separates the finalizer's identity from the work item's; the
handler's events carry a string argument and are distinct from the
finalizer's regardless of identity. -/
theorem finalizer_exactly_once_last (f : RecoverableFunction)
    (e : ErrorHandlerFunction) (l : RecoverableFunction) (hfl : f.id ≠ l.id) :
    ((recoverable_spawn_catch_finally f e l).events).count
        (Event.call l.id none) = 1 ∧
    ((recoverable_spawn_catch_finally f e l).events).getLast? =
        some (Event.call l.id none) := by
  obtain ⟨i, b⟩ := f
  cases b <;>
    simp [recoverable_spawn_catch_finally, thread_spawn, run_function,
      run_error_handle_function, call_recoverable, call_error_handler,
      catch_unwind, List.count_cons, List.getLast?, hfl]

/-- Witness for C3 at concrete callables: work panics, the handler also
panics, the finalizer (identity 2) still runs exactly once and last. -/
theorem finalizer_exactly_once_last_witness :
    ((recoverable_spawn_catch_finally ⟨0, some (AnyValue.vStrSlice "boom")⟩
        ⟨1, fun _ => some (AnyValue.vString "handler down")⟩ ⟨2, none⟩).events).count
        (Event.call 2 none) = 1 ∧
    ((recoverable_spawn_catch_finally ⟨0, some (AnyValue.vStrSlice "boom")⟩
        ⟨1, fun _ => some (AnyValue.vString "handler down")⟩ ⟨2, none⟩).events).getLast? =
        some (Event.call 2 none) :=
  finalizer_exactly_once_last ⟨0, some (AnyValue.vStrSlice "boom")⟩
    ⟨1, fun _ => some (AnyValue.vString "handler down")⟩ ⟨2, none⟩ (by decide)

/-- Claim C4: in `recoverable_spawn_catch` and `recoverable_spawn_catch_finally`
the handler is invoked if and only if the work faulted, and then receives
exactly `spawn_error_to_string` of the fault payload: the full traces are
characterized for both outcomes, and when the work completes normally no
handler event occurs. -/
theorem handler_iff_fault (f : RecoverableFunction) (e : ErrorHandlerFunction)
    (l : RecoverableFunction) :
    (f.behavior = none →
      (recoverable_spawn_catch f e).events = [Event.call f.id none] ∧
      (recoverable_spawn_catch_finally f e l).events =
        [Event.call f.id none, Event.call l.id none]) ∧
    (∀ p, f.behavior = some p →
      (recoverable_spawn_catch f e).events =
        [Event.call f.id none,
         Event.call e.id (some (spawn_error_to_string p))] ∧
      (recoverable_spawn_catch_finally f e l).events =
        [Event.call f.id none,
         Event.call e.id (some (spawn_error_to_string p)),
         Event.call l.id none]) := by
  refine ⟨fun h => ?_, fun p h => ?_⟩ <;>
    simp [recoverable_spawn_catch, recoverable_spawn_catch_finally,
      thread_spawn, run_function, run_error_handle_function,
      call_recoverable, call_error_handler, catch_unwind, h]

/-- Witness for C4 at concrete callables: work panicking with the literal
`boom` makes the handler (identity 1) receive exactly the string `boom`. -/
theorem handler_iff_fault_witness :
    (recoverable_spawn_catch ⟨0, some (AnyValue.vStrSlice "boom")⟩
        ⟨1, fun _ => none⟩).events =
      [Event.call 0 none, Event.call 1 (some "boom")] :=
  ((handler_iff_fault ⟨0, some (AnyValue.vStrSlice "boom")⟩ ⟨1, fun _ => none⟩
      ⟨2, none⟩).2 (AnyValue.vStrSlice "boom") rfl).1

/-- Claim C5: `spawn_error_to_string` tries exactly three cases in this fixed
order: a payload downcasting to `&'static str` is returned directly; else a
payload downcasting to `String` is returned directly; else the generic debug
rendering of the opaque box is returned. -/
theorem normalizer_three_cases (err : BoxAnySend) :
    (∀ s, downcast_ref_str err = some s → spawn_error_to_string err = s) ∧
    (downcast_ref_str err = none →
      ∀ s, downcast_ref_String err = some s → spawn_error_to_string err = s) ∧
    (downcast_ref_str err = none → downcast_ref_String err = none →
      spawn_error_to_string err = debug_format_any err) := by
  refine ⟨fun s h => ?_, fun h1 s h2 => ?_, fun h1 h2 => ?_⟩ <;>
    simp_all [spawn_error_to_string]

/-- Witness for C5 at a concrete payload of each of the three shapes. -/
theorem normalizer_three_cases_witness :
    spawn_error_to_string (AnyValue.vStrSlice "a") = "a" ∧
    spawn_error_to_string (AnyValue.vString "b") = "b" ∧
    spawn_error_to_string (AnyValue.vChar 'c') =
      debug_format_any (AnyValue.vChar 'c') :=
  ⟨(normalizer_three_cases (AnyValue.vStrSlice "a")).1 "a" rfl,
   (normalizer_three_cases (AnyValue.vString "b")).2.1 rfl "b" rfl,
   (normalizer_three_cases (AnyValue.vChar 'c')).2.2 rfl rfl⟩

/-- Claim C6: a fault payload that is a static string slice is normalized to
exactly that literal's content, and an owned-string payload to exactly that
string's content. -/
theorem normalizer_string_exact (s t : String) :
    spawn_error_to_string (AnyValue.vStrSlice s) = s ∧
    spawn_error_to_string (AnyValue.vString t) = t :=
  ⟨rfl, rfl⟩

/-- Claim C7: for every fault payload that is neither a static string slice
nor an owned string, `spawn_error_to_string` returns a non-empty string; as a
total function of the embedding it never itself faults. -/
theorem normalizer_fallback_nonempty (err : BoxAnySend)
    (h1 : downcast_ref_str err = none) (h2 : downcast_ref_String err = none) :
    spawn_error_to_string err ≠ "" := by
  simp [spawn_error_to_string, h1, h2, debug_format_any]

/-- Witness for C7 at a concrete non-string payload. -/
theorem normalizer_fallback_nonempty_witness :
    spawn_error_to_string (AnyValue.vChar 'x') ≠ "" :=
  normalizer_fallback_nonempty (AnyValue.vChar 'x') rfl rfl

/-- Claim C9: any two fault payloads that are neither static string slices nor
owned strings are normalized to the identical string: the fallback is a fixed
debug rendering of the opaque box, independent of the payload's value or
concrete type, so nothing about the payload is recoverable from it. -/
theorem fallback_independent_of_payload (e1 e2 : BoxAnySend)
    (h1 : downcast_ref_str e1 = none) (h2 : downcast_ref_String e1 = none)
    (h3 : downcast_ref_str e2 = none) (h4 : downcast_ref_String e2 = none) :
    spawn_error_to_string e1 = spawn_error_to_string e2 := by
  simp [spawn_error_to_string, h1, h2, h3, h4, debug_format_any]

/-- Witness for C9 at two concrete non-string payloads of different types and
values. -/
theorem fallback_independent_of_payload_witness :
    spawn_error_to_string (AnyValue.vChar 'a') =
      spawn_error_to_string (AnyValue.vOther "std::io::Error") :=
  fallback_independent_of_payload (AnyValue.vChar 'a')
    (AnyValue.vOther "std::io::Error") rfl rfl rfl rfl

/-- Claim C10: exactly the static-string-slice type and the owned-string type
are recognized as string shapes; a boxed string slice, a character, or any
other payload type falls through to the generic fallback rendering instead of
having its textual content returned. -/
theorem only_two_string_shapes (s : String) (c : Char) (t : String) :
    spawn_error_to_string (AnyValue.vStrSlice s) = s ∧
    spawn_error_to_string (AnyValue.vString s) = s ∧
    spawn_error_to_string (AnyValue.vBoxStr s) =
      debug_format_any (AnyValue.vBoxStr s) ∧
    spawn_error_to_string (AnyValue.vChar c) =
      debug_format_any (AnyValue.vChar c) ∧
    spawn_error_to_string (AnyValue.vOther t) =
      debug_format_any (AnyValue.vOther t) :=
  ⟨rfl, rfl, rfl, rfl, rfl⟩

/-- Claim C8: each containment call invokes its guarded callable exactly once:
the trace of `run_function` is exactly one invocation of the work item, and
the trace of `run_error_handle_function` is exactly one invocation of the
handler with the supplied error string. -/
theorem run_invokes_exactly_once (f : RecoverableFunction)
    (e : ErrorHandlerFunction) (s : String) :
    (run_function f).2 = [Event.call f.id none] ∧
    (run_error_handle_function e s).2 = [Event.call e.id (some s)] :=
  ⟨rfl, rfl⟩
